import Mathlib

set_option maxRecDepth 1000000

set_option maxHeartbeats 4000000

/-!
# Verification of the PRD document-rendering pipeline

Shallow embedding of the section parser and document renderer of the PRD
repository.  The regular expressions of the source are transcribed as
sequences of items over a small backtracking matcher (`matchSeq`) that
mirrors Python `re` semantics for the constructs the source uses:
literals, `\d+`, `\s+`, `.*?` (lazy), `.*` (greedy), `:?`, lookahead
alternations with `$` and `\Z`, with and without `re.DOTALL`.  Python
strings are modelled as Lean `String`s (`List Char` underneath); the
`reportlab` flowables appended to `self.story` are modelled by the
`Block` inductive, so a generated document is a `List Block`.
-/

namespace PRD

/-- Python whitespace (the characters stripped by `str.strip()` and matched
by `\s`). -/
def pySpace (c : Char) : Bool :=
  c = ' ' || c = '\t' || c = '\n' || c = '\r' || c = '\x0b' || c = '\x0c'

/-- Character classes used by the source regexes.  `anyDot` is `.` under
`re.DOTALL`; `nonNl` is `.` without `re.DOTALL` and also `[^\n]`. -/
inductive CC where
  | digit
  | space
  | nonNl
  | anyDot
deriving DecidableEq

def CC.test : CC → Char → Bool
  | .digit, c => c.isDigit
  | .space, c => pySpace c
  | .nonNl, c => c != '\n'
  | .anyDot, _ => true

/-- Length of the maximal leading run of characters of class `c`. -/
def runLen (c : CC) : List Char → Nat
  | [] => 0
  | a :: as => if c.test a then runLen c as + 1 else 0

/-- List starts with the given list. -/
def lpre : List Char → List Char → Bool
  | [], _ => true
  | _ :: _, [] => false
  | a :: as, b :: bs => a = b && lpre as bs

/-- Worker for `pySplit`: split on each non-overlapping occurrence of the
(non-empty) separator, scanning left to right; `acc` holds the current
piece reversed. -/
def splitGo : Nat → List Char → List Char → List Char → List (List Char)
  | 0, _, acc, _ => [acc.reverse]
  | fuel + 1, sep, acc, s =>
    if lpre sep s then acc.reverse :: splitGo fuel sep [] (s.drop sep.length)
    else
      match s with
      | [] => [acc.reverse]
      | c :: tail => splitGo fuel sep (c :: acc) tail

/-- Python `s.split(sep)` for a non-empty separator. -/
def pySplit (s sep : String) : List String :=
  (splitGo (s.data.length + 1) sep.data [] s.data).map (fun cs => ⟨cs⟩)

/-- First success of `f` over a list, in order (backtracking priority). -/
def firstSome {α β : Type} : List α → (α → Option β) → Option β
  | [], _ => none
  | a :: as, f => match f a with
    | some b => some b
    | none => firstSome as f

/-- Elements of a lookahead alternative: a literal or a greedy `+` class. -/
inductive LA where
  | lit : List Char → LA
  | plus : CC → LA

/-- Does the lookahead sequence match some leading part of `s`?  (Existence
is all a zero-width assertion needs.) -/
def laSeq : Nat → List LA → List Char → Bool
  | 0, _, _ => false
  | _ + 1, [], _ => true
  | fuel + 1, LA.lit cs :: rest, s =>
    lpre cs s && laSeq fuel rest (s.drop cs.length)
  | fuel + 1, LA.plus c :: rest, s =>
    (List.range (runLen c s)).any (fun i => laSeq fuel rest (s.drop (i + 1)))

/-- Items of the source regexes; a pattern is a `List RE`.  Capture groups
are recovered as the spans consumed by the individual items. -/
inductive RE where
  | lit : List Char → RE
  /-- greedy `+` of a class -/
  | plus : CC → RE
  /-- greedy `*` of a class -/
  | starG : CC → RE
  /-- lazy `*?` of a class -/
  | starL : CC → RE
  /-- greedy `?` of a literal (used for `:?`) -/
  | opt : List Char → RE
  /-- `(?=a1|a2|..)` plus optionally a `$` alternative and a `\Z`
  alternative -/
  | look : List (List LA) → Bool → Bool → RE
  /-- `$` without `re.MULTILINE`: end of input, or just before a final
  newline -/
  | dollar : RE

/-- Python `$` (no MULTILINE): at the very end, or before a trailing
newline. -/
def atDollar (s : List Char) : Bool := s.isEmpty || s == ['\n']

/-- Backtracking matcher for a sequence of items against a leading part of
`s`.  Returns the spans consumed by each item (zero-width items contribute
`[]`) and the remaining input.  Alternatives are tried in Python priority
order: greedy items longest first, lazy items shortest first.  `fuel`
only needs to exceed the number of items. -/
def matchSeq : Nat → List RE → List Char → Option (List (List Char) × List Char)
  | 0, _, _ => none
  | _ + 1, [], s => some ([], s)
  | fuel + 1, item :: rest, s =>
    match item with
    | RE.lit cs =>
      if lpre cs s then
        (matchSeq fuel rest (s.drop cs.length)).map (fun pr => (cs :: pr.1, pr.2))
      else none
    | RE.plus c =>
      let r := runLen c s
      firstSome (List.range r) (fun i =>
        let k := r - i
        (matchSeq fuel rest (s.drop k)).map (fun pr => (s.take k :: pr.1, pr.2)))
    | RE.starG c =>
      let r := runLen c s
      firstSome (List.range (r + 1)) (fun i =>
        let k := r - i
        (matchSeq fuel rest (s.drop k)).map (fun pr => (s.take k :: pr.1, pr.2)))
    | RE.starL c =>
      let r := runLen c s
      firstSome (List.range (r + 1)) (fun k =>
        (matchSeq fuel rest (s.drop k)).map (fun pr => (s.take k :: pr.1, pr.2)))
    | RE.opt cs =>
      match (if lpre cs s then
               (matchSeq fuel rest (s.drop cs.length)).map
                 (fun pr => (cs :: pr.1, pr.2))
             else none) with
      | some res => some res
      | none => (matchSeq fuel rest s).map (fun pr => (([] : List Char) :: pr.1, pr.2))
    | RE.look alts allowDollar allowZ =>
      if alts.any (fun alt => laSeq (alt.length + 1) alt s)
          || (allowDollar && atDollar s) || (allowZ && s.isEmpty) then
        (matchSeq fuel rest s).map (fun pr => (([] : List Char) :: pr.1, pr.2))
      else none
    | RE.dollar =>
      if atDollar s then
        (matchSeq fuel rest s).map (fun pr => (([] : List Char) :: pr.1, pr.2))
      else none

/-- Scan for the leftmost match (Python `re.search`), walking the input one
character at a time. -/
def searchAux : Nat → List RE → List Char → Option (List (List Char))
  | 0, _, _ => none
  | fuel + 1, items, s =>
    match matchSeq (items.length + 1) items s with
    | some pr => some pr.1
    | none =>
      match s with
      | [] => none
      | _ :: tail => searchAux fuel items tail

/-- Python `re.search`: spans of the leftmost match, if any. -/
def reSearch (items : List RE) (s : List Char) : Option (List (List Char)) :=
  searchAux (s.length + 1) items s

/-- Python `re.finditer`: all non-overlapping matches, scanning left to
right and resuming after each match (advancing at least one character). -/
def findIter : Nat → List RE → List Char → List (List (List Char))
  | 0, _, _ => []
  | fuel + 1, items, s =>
    match matchSeq (items.length + 1) items s with
    | some pr =>
      let len := (pr.1.map List.length).sum
      pr.1 :: (if s.isEmpty then [] else findIter fuel items (s.drop (max len 1)))
    | none =>
      match s with
      | [] => []
      | _ :: tail => findIter fuel items tail

def strOf (cs : List Char) : String := ⟨cs⟩

/-- Python `str.strip()`. -/
def pyStrip (s : String) : String :=
  ⟨((s.data.dropWhile pySpace).reverse.dropWhile pySpace).reverse⟩

/-- Python `pat in s` (substring containment). -/
def hasSub (s pat : String) : Bool :=
  (List.range (s.data.length + 1)).any (fun i => lpre pat.data (s.data.drop i))

/-- Python `s.startswith(pat)`. -/
def pyStarts (s pat : String) : Bool := lpre pat.data s.data

/-- Python dict assignment `d[k] = v`: replace in place if the key exists,
otherwise append (insertion order preserved, as in Python 3.7+). -/
def dictInsert (d : List (String × String)) (k v : String) : List (String × String) :=
  match d with
  | [] => [(k, v)]
  | (k₁, v₁) :: rest =>
    if k₁ = k then (k, v) :: rest else (k₁, v₁) :: dictInsert rest k v

/-- Python `s.split(sep, 1)[1]` when the separator occurs: the text after
the first newline. -/
def afterFirstNl (s : String) : Option String :=
  if s.data.any (fun c => c = '\n') then
    some ⟨(s.data.dropWhile (fun c => c != '\n')).drop 1⟩
  else none

/-- Shorthand for a literal regex item. -/
def L (s : String) : RE := RE.lit s.data

/-- Shorthand for a literal lookahead element. -/
def laL (s : String) : LA := LA.lit s.data

/-- Shorthand for an optional literal regex item. -/
def O (s : String) : RE := RE.opt s.data

/-- One flowable of the assembled `story`, keeping the style name so that
distinct paragraph styles stay distinct.  Spacer heights are recorded in
tenths of an inch (`0.2 * inch` becomes `2`) to stay in `Nat`. -/
inductive Block where
  | par : String → String → Block
  | spacer : Nat → Block
  | pageBreak : Block
  | bulletList : List String → Block
  | table : List (List String) → Block
deriving DecidableEq

def Block.isTable : Block → Bool
  | .table _ => true
  | _ => false

end PRD

namespace Utils

open PRD

/-- `PDFGenerator.SECTION_PATTERNS` of `utils.py`, transcribed pattern by
pattern.  Each regex `N\.\s+Title(.*?)(?=M\.\s+Next|$)` becomes the item
sequence literal / `\s+` / literal / lazy-dotall-star / lookahead; the
final pattern ends with `$` instead of a lookahead.  The paired string is
the section number the dictionary entry is stored under. -/
def SECTION_PATTERNS : List (List RE × String) :=
  [([L "1.", RE.plus .space, L "Introduction", RE.starL .anyDot,
     RE.look [[laL "2.", LA.plus .space, laL "Goals"]] true false], "1"),
   ([L "2.", RE.plus .space, L "Goals and Objectives", RE.starL .anyDot,
     RE.look [[laL "3.", LA.plus .space, laL "User"]] true false], "2"),
   ([L "3.", RE.plus .space, L "User Personas and Roles", RE.starL .anyDot,
     RE.look [[laL "4.", LA.plus .space, laL "Functional"]] true false], "3"),
   ([L "4.", RE.plus .space, L "Functional Requirements", RE.starL .anyDot,
     RE.look [[laL "5.", LA.plus .space, laL "Non-Functional"]] true false], "4"),
   ([L "5.", RE.plus .space, L "Non-Functional Requirements", RE.starL .anyDot,
     RE.look [[laL "6.", LA.plus .space, laL "User Interface"]] true false], "5"),
   ([L "6.", RE.plus .space, L "User Interface", RE.starL .anyDot, L "Considerations",
     RE.starL .anyDot,
     RE.look [[laL "7.", LA.plus .space, laL "Data"]] true false], "6"),
   ([L "7.", RE.plus .space, L "Data Requirements", RE.starL .anyDot,
     RE.look [[laL "8.", LA.plus .space, laL "System"]] true false], "7"),
   ([L "8.", RE.plus .space, L "System Architecture", RE.starL .anyDot,
     RE.look [[laL "9.", LA.plus .space, laL "Release"]] true false], "8"),
   ([L "9.", RE.plus .space, L "Release Criteria", RE.starL .anyDot,
     RE.look [[laL "10.", LA.plus .space, laL "Timeline"]] true false], "9"),
   ([L "10.", RE.plus .space, L "Timeline", RE.starL .anyDot,
     RE.look [[laL "11.", LA.plus .space, laL "Team"]] true false], "10"),
   ([L "11.", RE.plus .space, L "Team Structure", RE.starL .anyDot,
     RE.look [[laL "12.", LA.plus .space, laL "User Stories"]] true false], "11"),
   ([L "12.", RE.plus .space, L "User Stories", RE.starL .anyDot,
     RE.look [[laL "13.", LA.plus .space, laL "Cost"]] true false], "12"),
   ([L "13.", RE.plus .space, L "Open Issues", RE.starL .anyDot,
     RE.look [[laL "15.", LA.plus .space, laL "Appendix"]] true false], "14"),
   ([L "14.", RE.plus .space, L "Appendix", RE.starL .anyDot,
     RE.look [[laL "16.", LA.plus .space, laL "Points"]] true false], "15"),
   ([L "15.", RE.plus .space, L "Points Requiring", RE.starL .anyDot,
     RE.dollar], "16")]

/-- `PDFGenerator.SECTION_TITLES` of `utils.py` (note: no entry for
`"16"`, although that key is produced by the last pattern above). -/
def SECTION_TITLES : List (String × String) :=
  [("1", "Introduction"),
   ("2", "Goals and Objectives"),
   ("3", "User Personas and Roles"),
   ("4", "Functional Requirements"),
   ("5", "Non-Functional Requirements"),
   ("6", "User Interface (UI) / User Experience (UX) Considerations"),
   ("7", "Data Requirements"),
   ("8", "System Architecture & Technical Considerations"),
   ("9", "Release Criteria & Success Metrics"),
   ("10", "Timeline & Milestones"),
   ("11", "Team Structure"),
   ("12", "User Stories"),
   ("13", "Open Issues & Future Considerations"),
   ("14", "Appendix"),
   ("15", "Points Requiring Further Clarification")]

def TOC_ENTRIES : List String :=
  ["Introduction",
   "Goals and Objectives",
   "User Personas and Roles",
   "Functional Requirements",
   "Non-Functional Requirements",
   "User Interface (UI) / User Experience (UX) Considerations",
   "Data Requirements",
   "System Architecture & Technical Considerations",
   "Release Criteria & Success Metrics",
   "Timeline & Milestones",
   "Team Structure",
   "User Stories",
   "Open Issues & Future Considerations",
   "Appendix",
   "Points Requiring Further Clarification"]

/-- `self.SECTION_TITLES.get(section_num, f'Section {section_num}')`. -/
def sectionTitleDefault (n : String) : String :=
  (SECTION_TITLES.lookup n).getD ("Section " ++ n)

/-- `PDFGenerator._extract_sections`: one `re.search` per catalog pattern,
storing the whole match (`group(0)`) or, on a miss, the placeholder
`f"{section_num}. {default title}"`. -/
def extract_sections (content : String) : List (String × String) :=
  SECTION_PATTERNS.foldl
    (fun secs pn =>
      dictInsert secs pn.2
        (match reSearch pn.1 content.data with
         | some spans => strOf spans.flatten
         | none => pn.2 ++ ". " ++ sectionTitleDefault pn.2))
    []

/-- The regex `(\d+)\.(\d+)\s+(.*?)(?=\d+\.\d+|\Z)` (with `re.DOTALL`) of
`PDFGenerator._extract_subsections`.  Item spans: index 0 is group 1
(major), index 2 is group 2 (minor), the join of all spans is group 0. -/
def subsectionPat : List RE :=
  [RE.plus .digit, L ".", RE.plus .digit, RE.plus .space, RE.starL .anyDot,
   RE.look [[LA.plus .digit, laL ".", LA.plus .digit]] false true]

/-- `PDFGenerator._extract_subsections`: a dict comprehension
`{m.group(2): m.group(0) for m in matches}` — keyed by the minor number
only, later matches overwriting earlier ones with the same minor. -/
def extract_subsections (sectionContent : String) : List (String × String) :=
  (findIter (sectionContent.data.length + 1) subsectionPat sectionContent.data).foldl
    (fun d spans => dictInsert d (strOf (spans.getD 2 [])) (strOf spans.flatten))
    []

/-- The regex `\d+\.\s+(.*?)(?=\n|\Z)` (no DOTALL) of
`PDFGenerator._get_section_title`; group 1 is the span of item 3. -/
def sectionTitlePat : List RE :=
  [RE.plus .digit, L ".", RE.plus .space, RE.starL .nonNl,
   RE.look [[laL "\n"]] false true]

def get_section_title (n content : String) : String :=
  match reSearch sectionTitlePat content.data with
  | some spans => pyStrip (strOf (spans.getD 3 []))
  | none => sectionTitleDefault n

/-- The regex `\d+\.\d+\s+(.*?)(?=\n|\Z)` of
`PDFGenerator._get_subsection_title`; group 1 is the span of item 5. -/
def subsectionTitlePat : List RE :=
  [RE.plus .digit, L ".", RE.plus .digit, RE.plus .space, RE.starL .nonNl,
   RE.look [[laL "\n"]] false true]

def get_subsection_title (n content : String) : String :=
  match reSearch subsectionTitlePat content.data with
  | some spans => pyStrip (strOf (spans.getD 4 []))
  | none => "Subsection " ++ n

/-- The regex `\d+\.\s+.*?\n(.*)` (DOTALL) of
`PDFGenerator._clean_section_content`; group 1 is the span of item 5. -/
def cleanSectionPat : List RE :=
  [RE.plus .digit, L ".", RE.plus .space, RE.starL .anyDot, L "\n",
   RE.starG .anyDot]

/-- `PDFGenerator._clean_section_content`, with the
`content.split("\n", 1)` fallback. -/
def clean_section_content (content : String) : String :=
  match reSearch cleanSectionPat content.data with
  | some spans => pyStrip (strOf (spans.getD 5 []))
  | none =>
    match afterFirstNl content with
    | some t => pyStrip t
    | none => ""

/-- The regex `\d+\.\d+\s+.*?\n(.*)` (DOTALL) of
`PDFGenerator._clean_subsection_content`; group 1 is the span of item 6. -/
def cleanSubsectionPat : List RE :=
  [RE.plus .digit, L ".", RE.plus .digit, RE.plus .space, RE.starL .anyDot,
   L "\n", RE.starG .anyDot]

def clean_subsection_content (content : String) : String :=
  match reSearch cleanSubsectionPat content.data with
  | some spans => pyStrip (strOf (spans.getD 6 []))
  | none =>
    match afterFirstNl content with
    | some t => pyStrip t
    | none => ""

/-- The regex `Product Requirements Document:?\s*([^\n]+)` of
`PDFGenerator.extract_project_name`; group 1 is the span of item 3. -/
def projectNamePat : List RE :=
  [L "Product Requirements Document", O ":", RE.starG .space, RE.plus .nonNl]

def extract_project_name (content : String) : String :=
  match reSearch projectNamePat content.data with
  | some spans => pyStrip (strOf (spans.getD 3 []))
  | none => "Project Requirements Document"

/-- The line scan of `PDFGenerator._add_bullet_points`.  State:
accumulated list items, the bullet text under construction
(`current_text`, `none` before the first bullet), and the plain
paragraphs emitted for non-bulleted lines seen before the first bullet.
Returns (paragraph lines, bullet item texts). -/
def bulletScan (content : String) : List String × List String :=
  let step := fun (st : List String × Option String × List String) (line : String) =>
    let l := pyStrip line
    if pyStarts l "-" then
      ((match st.2.1 with
        | some t => st.1 ++ [t]
        | none => st.1),
       some (pyStrip (strOf (l.data.drop 1))), st.2.2)
    else
      match st.2.1 with
      | some t => (st.1, some (t ++ " " ++ l), st.2.2)
      | none => (st.1, none, st.2.2 ++ [l])
  let fin := (pySplit content "\n").foldl step ([], none, [])
  (fin.2.2, match fin.2.1 with
            | some t => fin.1 ++ [t]
            | none => fin.1)

/-- `PDFGenerator._add_bullet_points`: pre-bullet lines become normal
paragraphs (appended to the story as encountered, hence first), then one
`ListFlowable` holding the bullet items, if any. -/
def add_bullet_points (content : String) : List Block :=
  ((bulletScan content).1).map (Block.par "NormalStyle") ++
    (if (bulletScan content).2.isEmpty then []
     else [Block.bulletList (bulletScan content).2])

/-- `PDFGenerator._add_paragraphs`: split on blank lines, keep the
non-empty stripped pieces. -/
def add_paragraphs (content : String) : List Block :=
  (((pySplit content "\n\n").map pyStrip).filter (fun p => p ≠ "")).map
    (Block.par "NormalStyle")

def frHeader : List String :=
  ["ID", "Requirement Description", "Priority", "Dependencies"]

/-- One iteration of the row loop of
`PDFGenerator._add_functional_requirements_table`: a stripped line
contributes a row exactly when it starts with `FR` (not `ID`), contains a
pipe, and splits into at least 4 cells; the row is the first 4 stripped
cells. -/
def frRowOfLine (line : String) : Option (List String) :=
  let l := pyStrip line
  if (pyStarts l "FR" || pyStarts l "ID") && hasSub l "|" then
    if pyStarts l "ID" then none
    else
      let cells := (pySplit l "|").map pyStrip
      if 4 ≤ cells.length then some (cells.take 4) else none
  else none

def frParsedRows (content : String) : List (List String) :=
  (pySplit content "\n").filterMap frRowOfLine

/-- The row matrix of `PDFGenerator._add_functional_requirements_table`:
header plus parsed rows, with the synthetic placeholder row appended when
only the header remains. -/
def frTableRows (content : String) : List (List String) :=
  let rows := frHeader :: frParsedRows content
  if rows.length = 1 then rows ++ [["FR01", "Placeholder requirement", "High", "-"]]
  else rows

def add_functional_requirements_table (content : String) : List Block :=
  [Block.table (frTableRows content)]

/-- `PDFGenerator._add_content_with_formatting`: table if the text contains
`"FR01"` or `"ID | Requirement"`, else bullets if it starts with `-` after
stripping or contains `"\n-"`, else paragraphs. -/
def add_content_with_formatting (content : String) : List Block :=
  if hasSub content "FR01" || hasSub content "ID | Requirement" then
    add_functional_requirements_table content
  else if pyStarts (pyStrip content) "-" || hasSub content "\n-" then
    add_bullet_points content
  else
    add_paragraphs content

/-- Body of the per-section loop of `PDFGenerator.parse_and_add_content`:
heading, then either the formatted cleaned content or the subsection
subheadings with their formatted cleaned contents, then a spacer. -/
def sectionBody (secNum content : String) : List Block :=
  Block.par "HeadingStyle" (secNum ++ ". " ++ get_section_title secNum content) ::
    (let subs := extract_subsections content
     if subs.isEmpty then
       let c := clean_section_content content
       if c ≠ "" then add_content_with_formatting c else []
     else
       subs.flatMap (fun sub =>
         Block.par "SubheadingStyle"
             (secNum ++ "." ++ sub.1 ++ " " ++ get_subsection_title sub.1 sub.2) ::
           (let cc := clean_subsection_content sub.2
            if cc ≠ "" then add_content_with_formatting cc else []))) ++
    [Block.spacer 3]

def parse_and_add_content (content : String) : List Block :=
  (extract_sections content).flatMap (fun sec => sectionBody sec.1 sec.2)

/-- `PDFGenerator.create_cover_page`; `today` stands for
`datetime.now().strftime('%B %d, %Y')`, made an explicit parameter. -/
def create_cover_page (projectName today : String) : List Block :=
  [Block.par "TitleStyle" "Product Requirements Document:",
   Block.par "SubtitleStyle" projectName,
   Block.spacer 2,
   Block.par "NormalStyle" ("Generated on: " ++ today),
   Block.spacer 10]

def create_table_of_contents : List Block :=
  Block.par "SubtitleStyle" "Table of Contents" :: Block.spacer 2 ::
    TOC_ENTRIES.enum.map
      (fun ie => Block.par "TOCStyle" (toString (ie.1 + 1) ++ ". " ++ ie.2))

/-- `PDFGenerator.generate`: the full story handed to `doc.build`, as a
function of the input text and of the current date (the one ambient value
the cover page reads). -/
def generate (content today : String) : List Block :=
  create_cover_page (extract_project_name content) today ++
    create_table_of_contents ++ [Block.pageBreak] ++
    parse_and_add_content content

end Utils

namespace TestApp

open PRD

/-- The `section_patterns` list of `PDFGenerator.extract_sections` in
`test.py`: sixteen patterns, one per catalog section, with matching
numbers. -/
def SECTION_PATTERNS : List (List RE × String) :=
  [([L "1.", RE.plus .space, L "Introduction", RE.starL .anyDot,
     RE.look [[laL "2.", LA.plus .space, laL "Goals"]] true false], "1"),
   ([L "2.", RE.plus .space, L "Goals and Objectives", RE.starL .anyDot,
     RE.look [[laL "3.", LA.plus .space, laL "User"]] true false], "2"),
   ([L "3.", RE.plus .space, L "User Personas and Roles", RE.starL .anyDot,
     RE.look [[laL "4.", LA.plus .space, laL "Functional"]] true false], "3"),
   ([L "4.", RE.plus .space, L "Functional Requirements", RE.starL .anyDot,
     RE.look [[laL "5.", LA.plus .space, laL "Non-Functional"]] true false], "4"),
   ([L "5.", RE.plus .space, L "Non-Functional Requirements", RE.starL .anyDot,
     RE.look [[laL "6.", LA.plus .space, laL "User Interface"]] true false], "5"),
   ([L "6.", RE.plus .space, L "User Interface", RE.starL .anyDot, L "Considerations",
     RE.starL .anyDot,
     RE.look [[laL "7.", LA.plus .space, laL "Data"]] true false], "6"),
   ([L "7.", RE.plus .space, L "Data Requirements", RE.starL .anyDot,
     RE.look [[laL "8.", LA.plus .space, laL "System"]] true false], "7"),
   ([L "8.", RE.plus .space, L "System Architecture", RE.starL .anyDot,
     RE.look [[laL "9.", LA.plus .space, laL "Release"]] true false], "8"),
   ([L "9.", RE.plus .space, L "Release Criteria", RE.starL .anyDot,
     RE.look [[laL "10.", LA.plus .space, laL "Timeline"]] true false], "9"),
   ([L "10.", RE.plus .space, L "Timeline", RE.starL .anyDot,
     RE.look [[laL "11.", LA.plus .space, laL "Team"]] true false], "10"),
   ([L "11.", RE.plus .space, L "Team Structure", RE.starL .anyDot,
     RE.look [[laL "12.", LA.plus .space, laL "User Stories"]] true false], "11"),
   ([L "12.", RE.plus .space, L "User Stories", RE.starL .anyDot,
     RE.look [[laL "13.", LA.plus .space, laL "Cost"]] true false], "12"),
   ([L "13.", RE.plus .space, L "Cost Estimation", RE.starL .anyDot,
     RE.look [[laL "14.", LA.plus .space, laL "Open"]] true false], "13"),
   ([L "14.", RE.plus .space, L "Open Issues", RE.starL .anyDot,
     RE.look [[laL "15.", LA.plus .space, laL "Appendix"]] true false], "14"),
   ([L "15.", RE.plus .space, L "Appendix", RE.starL .anyDot,
     RE.look [[laL "16.", LA.plus .space, laL "Points"]] true false], "15"),
   ([L "16.", RE.plus .space, L "Points Requiring", RE.starL .anyDot,
     RE.dollar], "16")]

/-- `PDFGenerator.get_default_section_title` of `test.py` (all sixteen
titles present). -/
def get_default_section_title (n : String) : String :=
  ((([("1", "Introduction"),
      ("2", "Goals and Objectives"),
      ("3", "User Personas and Roles"),
      ("4", "Functional Requirements"),
      ("5", "Non-Functional Requirements"),
      ("6", "User Interface (UI) / User Experience (UX) Considerations"),
      ("7", "Data Requirements"),
      ("8", "System Architecture & Technical Considerations"),
      ("9", "Release Criteria & Success Metrics"),
      ("10", "Timeline & Milestones"),
      ("11", "Team Structure"),
      ("12", "User Stories"),
      ("13", "Cost Estimation"),
      ("14", "Open Issues & Future Considerations"),
      ("15", "Appendix"),
      ("16", "Points Requiring Further Clarification")] :
    List (String × String)).lookup n).getD ("Section " ++ n))

/-- `PDFGenerator.extract_sections` of `test.py`. -/
def extract_sections (content : String) : List (String × String) :=
  SECTION_PATTERNS.foldl
    (fun secs pn =>
      dictInsert secs pn.2
        (match reSearch pn.1 content.data with
         | some spans => strOf spans.flatten
         | none => pn.2 ++ ". " ++ get_default_section_title pn.2))
    []

/-- `PDFGenerator.clean_section_content` of `test.py` (same regex and
fallback as the `utils.py` copy). -/
def clean_section_content (content : String) : String :=
  match reSearch Utils.cleanSectionPat content.data with
  | some spans => pyStrip (strOf (spans.getD 5 []))
  | none =>
    match afterFirstNl content with
    | some t => pyStrip t
    | none => ""

end TestApp

namespace PRD

/-- A synthetic input carrying all sixteen correctly labelled section
markers of the catalog in order, each followed by a one-line body. -/
def roundTripDoc : String :=
  "1. Introduction\nIntro body text\n" ++
  "2. Goals and Objectives\nGoals body\n" ++
  "3. User Personas and Roles\nPersonas body\n" ++
  "4. Functional Requirements\nRequirements body\n" ++
  "5. Non-Functional Requirements\nQuality body\n" ++
  "6. User Interface (UI) / User Experience (UX) Considerations\nInterface body\n" ++
  "7. Data Requirements\nData body\n" ++
  "8. System Architecture & Technical Considerations\nArchitecture body\n" ++
  "9. Release Criteria & Success Metrics\nRelease body\n" ++
  "10. Timeline & Milestones\nTimeline body\n" ++
  "11. Team Structure\nTeam body\n" ++
  "12. User Stories\nStories body\n" ++
  "13. Cost Estimation\nCost body\n" ++
  "14. Open Issues & Future Considerations\nIssues body\n" ++
  "15. Appendix\nAppendix body\n" ++
  "16. Points Requiring Further Clarification\nClarification body"

/-- The table input named by the spec's table-parsing property. -/
def tableSpecInput : String :=
  "ID | Requirement Description | Priority | Dependencies\n" ++
  "FR01 | Login | High | None\nFR02 | Search | Medium | FR01"

/-- Section-4 content whose second subsection marker carries a foreign
major number (`7.2`). -/
def crossMajorSection : String :=
  "4. Functional Requirements\n4.1 Alpha\nx\n7.2 Beta\ny"

/-- Section-4 content with two subsection markers sharing minor `1`. -/
def dupMinorSection : String :=
  "4. Functional Requirements\n4.1 Alpha\nx\n4.1 Beta\ny"

end PRD

open PRD

theorem frRowOfLine_length (l : String) (r : List String)
    (h : Utils.frRowOfLine l = some r) : r.length = 4 := by
  simp only [Utils.frRowOfLine] at h
  split at h
  · split at h
    · exact Option.noConfusion h
    · split at h
      · rename_i hlen
        injection h with h
        subst h
        simp only [List.length_take, List.length_map] at hlen ⊢
        omega
      · exact Option.noConfusion h
  · exact Option.noConfusion h

theorem frTableRows_length (content : String) (r : List String)
    (h : r ∈ Utils.frTableRows content) : r.length = 4 := by
  have hp : ∀ x ∈ Utils.frParsedRows content, x.length = 4 := by
    intro x hx
    simp only [Utils.frParsedRows, List.mem_filterMap] at hx
    obtain ⟨a, _, ha⟩ := hx
    exact frRowOfLine_length a x ha
  simp only [Utils.frTableRows] at h
  split at h
  · simp only [List.cons_append, List.mem_cons, List.mem_append,
      List.not_mem_nil, or_false] at h
    rcases h with h | h | h
    · subst h; rfl
    · exact hp r h
    · subst h; rfl
  · rcases List.mem_cons.mp h with h | h
    · subst h; rfl
    · exact hp r h

theorem frTableRows_head (content : String) :
    (Utils.frTableRows content).head? = some Utils.frHeader := by
  simp only [Utils.frTableRows]
  split <;> rfl

theorem add_bullet_points_no_table (c : String) :
    (Utils.add_bullet_points c).any Block.isTable = false := by
  simp only [Utils.add_bullet_points, List.any_append, Bool.or_eq_false_iff]
  constructor
  · rw [List.any_eq_false]
    intro x hx
    obtain ⟨a, _, rfl⟩ := List.mem_map.mp hx
    simp [Block.isTable]
  · split
    · rfl
    · rfl

theorem add_paragraphs_no_table (c : String) :
    (Utils.add_paragraphs c).any Block.isTable = false := by
  simp only [Utils.add_paragraphs]
  rw [List.any_eq_false]
  intro x hx
  obtain ⟨a, _, rfl⟩ := List.mem_map.mp hx
  simp [Block.isTable]

theorem string_append_cancel {p a b : String} (h : p ++ a = p ++ b) : a = b := by
  cases p with | mk pd =>
  cases a with | mk ad =>
  cases b with | mk bd =>
  have hd : pd ++ ad = pd ++ bd := congrArg String.data h
  exact congrArg String.mk (List.append_cancel_left hd)

/-- C1: refuted on `utils.py` as written — evaluating
`PDFGenerator._extract_sections` on the empty string (where every marker
is absent) yields only fifteen entries, keyed 1–12 and 14–16: there is no
entry for identifier 13, and the entry for identifier 16 is the generic
fallback `"16. Section 16"` rather than a catalog default title. -/
theorem C1_empty_input_sections :
    (Utils.extract_sections "").map Prod.fst =
      ["1", "2", "3", "4", "5", "6", "7", "8", "9", "10", "11", "12",
       "14", "15", "16"] ∧
    (Utils.extract_sections "").lookup "13" = none ∧
    (Utils.extract_sections "").lookup "16" = some "16. Section 16" ∧
    (Utils.extract_sections "").length = 15 := by decide

/-- C2: round-trip — on an input carrying all sixteen correctly labelled
section markers in catalog order (the sixteen-pattern extractor of
`test.py`), extraction followed by content cleaning returns, for every
identifier, exactly the known one-line body with the marker line
stripped. -/
theorem C2_roundtrip_all_sections :
    (TestApp.extract_sections roundTripDoc).map
      (fun kv => (kv.1, TestApp.clean_section_content kv.2)) =
    [("1", "Intro body text"), ("2", "Goals body"), ("3", "Personas body"),
     ("4", "Requirements body"), ("5", "Quality body"), ("6", "Interface body"),
     ("7", "Data body"), ("8", "Architecture body"), ("9", "Release body"),
     ("10", "Timeline body"), ("11", "Team body"), ("12", "Stories body"),
     ("13", "Cost body"), ("14", "Issues body"), ("15", "Appendix body"),
     ("16", "Clarification body")] := by decide

/-- C3: the totality part holds — extraction is a total function whose
key list is the same for every input — but on the markerless input
`"lorem ipsum no markers"` the map has fifteen entries, not sixteen (no
key 13), and entry 16 carries the generic `"Section 16"` fallback, not a
catalog default title; all cleaned bodies are empty as claimed. -/
theorem C3_garbage_input_sections :
    (∀ s : String, (Utils.extract_sections s).map Prod.fst =
      ["1", "2", "3", "4", "5", "6", "7", "8", "9", "10", "11", "12",
       "14", "15", "16"]) ∧
    (Utils.extract_sections "lorem ipsum no markers").map
        (fun kv => (kv.1, Utils.clean_section_content kv.2)) =
      [("1", ""), ("2", ""), ("3", ""), ("4", ""), ("5", ""), ("6", ""),
       ("7", ""), ("8", ""), ("9", ""), ("10", ""), ("11", ""), ("12", ""),
       ("14", ""), ("15", ""), ("16", "")] ∧
    (Utils.extract_sections "lorem ipsum no markers").lookup "13" = none ∧
    (Utils.extract_sections "lorem ipsum no markers").lookup "16" =
      some "16. Section 16" := by
  refine ⟨fun s => rfl, by decide, by decide, by decide⟩

/-- C4 counterexample: `"FR02 | Search | Medium | none"` is a line the
table parser itself accepts as an ID-prefixed, pipe-delimited data row,
yet the dispatcher renders it as a plain paragraph (it contains neither
the substring `"FR01"` nor `"ID | Requirement"`), refuting "text with such
a row is never rendered as bullets or paragraphs". -/
theorem C4_table_row_not_dispatched_to_table :
    Utils.frRowOfLine "FR02 | Search | Medium | none" =
      some ["FR02", "Search", "Medium", "none"] ∧
    Utils.add_content_with_formatting "FR02 | Search | Medium | none" =
      [Block.par "NormalStyle" "FR02 | Search | Medium | none"] := by decide

/-- C4 amended: a body text is routed to the 4-column
functional-requirements table renderer (with header row ID, Requirement
Description, Priority, Dependencies) exactly when it contains the literal
substring `"FR01"` or the literal substring `"ID | Requirement"`; texts
without these substrings never produce a table block. -/
theorem C4_dispatch_by_substring (content : String) :
    ((Utils.add_content_with_formatting content).any Block.isTable
        = (hasSub content "FR01" || hasSub content "ID | Requirement")) ∧
    ((hasSub content "FR01" || hasSub content "ID | Requirement") = true →
      Utils.add_content_with_formatting content
          = [Block.table (Utils.frTableRows content)] ∧
      (Utils.frTableRows content).head? = some Utils.frHeader) := by
  by_cases h : (hasSub content "FR01" || hasSub content "ID | Requirement") = true
  · refine ⟨?_, fun _ => ⟨?_, frTableRows_head content⟩⟩
    · simp [Utils.add_content_with_formatting, h,
        Utils.add_functional_requirements_table, Block.isTable]
    · simp [Utils.add_content_with_formatting, h,
        Utils.add_functional_requirements_table]
  · have h' : (hasSub content "FR01" || hasSub content "ID | Requirement") = false := by
      cases hb : (hasSub content "FR01" || hasSub content "ID | Requirement")
      · rfl
      · exact absurd hb h
    refine ⟨?_, fun hc => absurd hc h⟩
    rw [h']
    simp only [Utils.add_content_with_formatting, h']
    rw [if_neg (by simp)]
    split
    · exact add_bullet_points_no_table content
    · exact add_paragraphs_no_table content

/-- C4 witness: the amended dispatch theorem applied to a content that
does contain `"FR01"`. -/
theorem C4_dispatch_by_substring_witness :
    Utils.add_content_with_formatting "FR01 | Login | High | None" =
      [Block.table (Utils.frTableRows "FR01 | Login | High | None")] ∧
    (Utils.frTableRows "FR01 | Login | High | None").head? = some Utils.frHeader :=
  (C4_dispatch_by_substring "FR01 | Login | High | None").2 (by decide)

/-- C5: the spec's table input yields exactly the header plus two data
rows; appending a two-field line changes nothing; and in general any line
of any input whose stripped pipe-split has fewer than four fields
contributes no output row. -/
theorem C5_table_row_parsing :
    Utils.frTableRows tableSpecInput =
      [Utils.frHeader, ["FR01", "Login", "High", "None"],
       ["FR02", "Search", "Medium", "FR01"]] ∧
    Utils.frTableRows (tableSpecInput ++ "\nFR03 | OnlyTwo") =
      [Utils.frHeader, ["FR01", "Login", "High", "None"],
       ["FR02", "Search", "Medium", "FR01"]] ∧
    ∀ content l, l ∈ pySplit content "\n" →
      (((pySplit (pyStrip l) "|")).map pyStrip).length < 4 →
      (pySplit (pyStrip l) "|").map pyStrip ∉ Utils.frTableRows content := by
  refine ⟨by decide, by decide, fun content l _ hlen hmem => ?_⟩
  have h4 := frTableRows_length content _ hmem
  omega

/-- C5 witness: the general dropped-line part applied to the concrete
two-field line. -/
theorem C5_table_row_parsing_witness :
    (pySplit (pyStrip "FR03 | OnlyTwo") "|").map pyStrip ∉
      Utils.frTableRows "FR03 | OnlyTwo" :=
  C5_table_row_parsing.2.2 "FR03 | OnlyTwo" "FR03 | OnlyTwo" (by decide) (by decide)

/-- C6: a rendered functional-requirements table always has at least one
row below the header, and whenever zero data rows are parsed the result
is exactly the header plus the single synthetic placeholder row. -/
theorem C6_table_never_empty :
    (∀ content, 2 ≤ (Utils.frTableRows content).length) ∧
    (∀ content, Utils.frParsedRows content = [] →
      Utils.frTableRows content =
        [Utils.frHeader, ["FR01", "Placeholder requirement", "High", "-"]]) := by
  constructor
  · intro content
    simp only [Utils.frTableRows]
    split
    · simp
    · rename_i hne
      simp only [List.length_cons] at hne ⊢
      omega
  · intro content h
    simp [Utils.frTableRows, h]

/-- C6 witness: the placeholder part applied to an input from which no
row parses. -/
theorem C6_table_never_empty_witness :
    Utils.frTableRows "no requirements mentioned" =
      [Utils.frHeader, ["FR01", "Placeholder requirement", "High", "-"]] :=
  C6_table_never_empty.2 "no requirements mentioned" (by decide)

/-- C7 counterexample: on `"- item one\n\nafter blank"` the blank line
does not terminate the bullet item — the scan yields the single item
`"item one  after blank"` (with a double space injected by the blank
continuation line), and no item equal to `"item one"` exists, refuting
"ending at the next bullet marker or at a blank line". -/
theorem C7_blank_line_counterexample :
    Utils.bulletScan "- item one\n\nafter blank" =
      ([], ["item one  after blank"]) ∧
    "item one" ∉ (Utils.bulletScan "- item one\n\nafter blank").2 := by decide

/-- C7 amended: a bullet item's text ends only at the next bullet marker
(a blank line does not end it and contributes an extra joining space);
continuation lines are joined with a single space; non-bulleted lines
before the first bullet are emitted as plain paragraphs; and the spec's
example yields exactly 2 items, the first being "item one continued". -/
theorem C7_bullet_accumulation :
    Utils.bulletScan "- item one\n  continued\n- item two" =
      ([], ["item one continued", "item two"]) ∧
    Utils.add_bullet_points "- item one\n  continued\n- item two" =
      [Block.bulletList ["item one continued", "item two"]] ∧
    Utils.bulletScan "intro\n- a\n  b" = (["intro"], ["a b"]) ∧
    Utils.add_bullet_points "intro\n- a\n  b" =
      [Block.par "NormalStyle" "intro", Block.bulletList ["a b"]] ∧
    Utils.bulletScan "- item one\n\nafter blank" =
      ([], ["item one  after blank"]) := by decide

/-- C8 counterexample: with the same input text, two runs of
`PDFGenerator.generate` on different dates produce different stories (the
cover's "Generated on" paragraph differs), refuting "the output depends
on nothing but the input text and the project-name parameter". -/
theorem C8_output_varies_with_date :
    Utils.generate "some content" "May 05, 2025" ≠
      Utils.generate "some content" "May 06, 2025" := by decide

/-- C8 amended: the generated story depends on exactly the input text and
the current date — for a fixed input text, two runs agree precisely when
their dates agree (and by reflexivity, identical text and date always
reproduce the identical story). -/
theorem C8_pure_given_text_and_date (content d₁ d₂ : String) :
    Utils.generate content d₁ = Utils.generate content d₂ ↔ d₁ = d₂ := by
  constructor
  · intro h
    have h3 : (Utils.generate content d₁).get? 3
        = (Utils.generate content d₂).get? 3 := by rw [h]
    have h4 : some (Block.par "NormalStyle" ("Generated on: " ++ d₁))
        = some (Block.par "NormalStyle" ("Generated on: " ++ d₂)) := h3
    injection h4 with h5
    injection h5 with _ h6
    exact string_append_cancel h6
  · intro h
    rw [h]

/-- C9: every row of a rendered functional-requirements table has exactly
4 cells, and a line splitting into more than 4 pipe-delimited fields is
truncated to its first 4 fields rather than dropped or emitted wide. -/
theorem C9_rows_are_four_wide :
    (∀ content r, r ∈ Utils.frTableRows content → r.length = 4) ∧
    Utils.frTableRows "FR01 | a | b | c | d" =
      [Utils.frHeader, ["FR01", "a", "b", "c"]] :=
  ⟨frTableRows_length, by decide⟩

/-- C9 witness: the four-cell part applied to the truncated row of the
five-field line. -/
theorem C9_rows_are_four_wide_witness :
    (["FR01", "a", "b", "c"] : List String).length = 4 :=
  C9_rows_are_four_wide.1 "FR01 | a | b | c | d" ["FR01", "a", "b", "c"] (by decide)

/-- C10: subsections are keyed by the minor number alone — a `7.2` marker
inside section 4's content is stored under key `"2"` and rendered as
`4.2` under the owning section's number, and of two markers sharing minor
`1` only the last is kept and rendered. -/
theorem C10_subsections_keyed_by_minor :
    Utils.extract_subsections crossMajorSection =
      [("1", "4.1 Alpha\nx\n"), ("2", "7.2 Beta\ny")] ∧
    Utils.sectionBody "4" crossMajorSection =
      [Block.par "HeadingStyle" "4. Functional Requirements",
       Block.par "SubheadingStyle" "4.1 Alpha", Block.par "NormalStyle" "x",
       Block.par "SubheadingStyle" "4.2 Beta", Block.par "NormalStyle" "y",
       Block.spacer 3] ∧
    Utils.extract_subsections dupMinorSection = [("1", "4.1 Beta\ny")] ∧
    Utils.sectionBody "4" dupMinorSection =
      [Block.par "HeadingStyle" "4. Functional Requirements",
       Block.par "SubheadingStyle" "4.1 Beta", Block.par "NormalStyle" "y",
       Block.spacer 3] := by decide
